import Mathlib

/-!
Verification of the zmu ARMv6-M instruction-set simulator core against its
natural-language specification.

The Rust sources are embedded shallowly:

* machine integers (`u8`/`u16`/`u32`) become `Nat` with explicit `% 2^w`
  truncation where the Rust code truncates; `i32` values are represented by
  `Int` in the range `[-2^31, 2^31)`;
* Rust arithmetic that can overflow is modelled with the release-profile
  (two's-complement wrapping / shift-amount masking) semantics, which is how
  the emulator binary is built and run; where a claim turns on such an
  overflow this is called out, since a debug build would panic at the same
  input instead of wrapping;
* fallible code (`panic!`, `assert!`, `unimplemented!`) returns `Option`,
  with `none` standing for the panic.

Types that the embedded modules use but whose defining file is not part of
the provided sources (`Reg`, `Condition`, `PSR`, `ThumbCode`, `get_reglist`)
are modelled from the specification document and marked as such.
-/

namespace Zmu

/-- Truncation to 32 bits, i.e. a `u32` cast / wrap. -/
def u32 (n : Nat) : Nat := n % 4294967296

/-- Reinterpret a 32-bit unsigned value as an `i32` (two's complement). -/
def toSigned (n : Nat) : Int :=
  if n < 2147483648 then (n : Int) else (n : Int) - 4294967296

/-- Two's-complement wrap of an unbounded integer into the `i32` range,
the result of a Rust release-profile `i32` addition. -/
def i32wrap (z : Int) : Int := (z + 2147483648) % 4294967296 - 2147483648

/-- Modelled from the spec: the program status register is a 32-bit word
exposing named bits N (bit 31), Z (30), C (29), V (28).  The file
`core/register.rs` defining `PSR` and its flag getters is not among the
provided sources. -/
structure PSR where
  value : Nat

/-- Modelled from the spec: getter for the N (negative) flag, bit 31. -/
def PSR.get_n (psr : PSR) : Bool := psr.value.testBit 31

/-- Modelled from the spec: getter for the Z (zero) flag, bit 30. -/
def PSR.get_z (psr : PSR) : Bool := psr.value.testBit 30

/-- Modelled from the spec: getter for the C (carry) flag, bit 29. -/
def PSR.get_c (psr : PSR) : Bool := psr.value.testBit 29

/-- Modelled from the spec: getter for the V (overflow) flag, bit 28. -/
def PSR.get_v (psr : PSR) : Bool := psr.value.testBit 28

/-- Modelled from the spec: the 15 ARM condition codes.  The file
`core/condition.rs` is not among the provided sources. -/
inductive Condition
  | EQ | NE | CS | CC | MI | PL | VS | VC
  | HI | LS | GE | LT | GT | LE | AL
  deriving DecidableEq

/-- Shift-operation tag, from `core/operation.rs` (`enum SRType`). -/
inductive SRType
  | LSL | LSR | ASR | RRX | ROR
  deriving DecidableEq

namespace Operation

/-- Embedding of `sign_extend` from `core/operation.rs`.  `word` is a `u32`,
`topbit` and `size` are `u8` values.  The Rust shift amounts are masked
modulo 32 and the `u8` subtraction `size - topbit` wraps modulo 256
(release-profile semantics; a debug build panics when `size - topbit`
reaches 32 or when `topbit` exceeds 31). -/
def sign_extend (word : Nat) (topbit size : Nat) : Int :=
  if word &&& u32 (1 <<< (topbit % 32)) = u32 (1 <<< (topbit % 32)) then
    toSigned (u32 (word |||
      u32 ((u32 (1 <<< (((size + 256 - topbit) % 256) % 32)) - 1) <<< (topbit % 32))))
  else
    toSigned word

/-- Embedding of `add_with_carry` from `core/operation.rs`.  The unsigned
sum is computed in `u64` (no wrap possible for 32-bit inputs); the signed
sum is computed by `i32` additions, which wrap in the release profile
(and would panic in a debug build). -/
def add_with_carry (x y : Nat) (carry_in : Bool) : Nat × Bool × Bool :=
  let unsigned_sum : Nat := x + y + (if carry_in then 1 else 0)
  let signed_sum : Int :=
    i32wrap (i32wrap (toSigned x + toSigned y) + (if carry_in then 1 else 0))
  let result : Nat := unsigned_sum % 4294967296
  let carry_out : Bool := decide (result ≠ unsigned_sum)
  let overflow : Bool := decide (toSigned result ≠ signed_sum)
  (result, carry_out, overflow)

/-- Embedding of `condition_passed` from `core/operation.rs`, arm for arm. -/
def condition_passed (condition : Condition) (psr : PSR) : Bool :=
  match condition with
  | .EQ => psr.get_z
  | .NE => !psr.get_z
  | .CS => psr.get_c
  | .CC => !psr.get_c
  | .MI => psr.get_n
  | .PL => !psr.get_n
  | .VS => psr.get_v
  | .VC => !psr.get_v
  | .HI => psr.get_c && psr.get_z
  | .LS => !(psr.get_c && psr.get_z)
  | .GE => psr.get_n == psr.get_v
  | .LT => !(psr.get_n == psr.get_v)
  | .GT => (psr.get_n == psr.get_v) && !psr.get_z
  | .LE => !((psr.get_n == psr.get_v) && !psr.get_z)
  | .AL => true

/-- The ARM ARM condition truth table as the spec states it (EQ=Z, NE=¬Z,
CS=C, CC=¬C, MI=N, PL=¬N, VS=V, VC=¬V, HI=C∧¬Z, LS=¬C∨Z, GE=(N=V),
LT=(N≠V), GT=(N=V)∧¬Z, LE=(N≠V)∨Z, AL=true), written from the spec's words
for comparison with the source's `condition_passed`. -/
def condition_passed_arm (condition : Condition) (psr : PSR) : Bool :=
  match condition with
  | .EQ => psr.get_z
  | .NE => !psr.get_z
  | .CS => psr.get_c
  | .CC => !psr.get_c
  | .MI => psr.get_n
  | .PL => !psr.get_n
  | .VS => psr.get_v
  | .VC => !psr.get_v
  | .HI => psr.get_c && !psr.get_z
  | .LS => !psr.get_c || psr.get_z
  | .GE => psr.get_n == psr.get_v
  | .LT => !(psr.get_n == psr.get_v)
  | .GT => (psr.get_n == psr.get_v) && !psr.get_z
  | .LE => !((psr.get_n == psr.get_v) && !psr.get_z)
  | .AL => true

/-- Embedding of `decode_imm_shift` from `core/operation.rs`.  The source
dispatches on `typebits.get_bits(0..3)`, a 3-bit slice (`& 0b111`), and
panics (`none`) on the values 4–7 of that slice. -/
def decode_imm_shift (typebits imm5 : Nat) : Option (SRType × Nat) :=
  match typebits % 8 with
  | 0 => some (.LSL, imm5)
  | 1 => some (.LSR, if imm5 = 0 then 32 else imm5)
  | 2 => some (.ASR, if imm5 = 0 then 32 else imm5)
  | 3 =>
    match imm5 with
    | 0 => some (.RRX, 1)
    | _ => some (.ROR, imm5)
  | _ => none

/-- Embedding of `lsl_c` from `core/operation.rs`: `assert!(shift > 0)`
(failure is `none`), then a `u64` left shift whose low 32 bits and bit 32
are returned.  The `u64` shift masks its amount modulo 64 in the release
profile. -/
def lsl_c (value : Nat) (shift : Nat) : Option (Nat × Bool) :=
  if shift > 0 then
    let extended : Nat := (value <<< (shift % 64)) % 18446744073709551616
    some (extended % 4294967296, extended.testBit 32)
  else
    none

/-- The assertion guarding `shift_c` in `core/operation.rs`:
`assert!(!((shift_t == SRType::RRX) && (amount != 1)))`. -/
def shiftAssert (shift_t : SRType) (amount : Nat) : Bool :=
  !(shift_t = SRType.RRX && amount ≠ 1)

/-- Embedding of `shift_c` from `core/operation.rs`.  An assertion failure
or a `panic!("not implemented")` is `none`; only LSL is implemented for
nonzero amounts. -/
def shift_c (value : Nat) (shift_t : SRType) (amount : Nat) (carry_in : Bool) :
    Option (Nat × Bool) :=
  if shiftAssert shift_t amount then
    if amount = 0 then
      some (value, carry_in)
    else
      match shift_t with
      | .LSL => lsl_c value amount
      | _ => none
  else
    none

end Operation

/-- Sanity check: the unit test shipped with `core/operation.rs`
(`add_with_carry(0x410, 4, false) == (0x414, false, false)`). -/
theorem add_with_carry_unit_test :
    Operation.add_with_carry 1040 4 false = (1044, false, false) := by decide

/-- Claim C1, failing input: at `x = 0x7FFFFFFF, y = 1, carry_in = false`
the code returns `overflow = false` (the signed sum is computed by
wrapping `i32` additions, so it always equals the truncated result), while
the claimed condition — x and y share a sign bit and the result's sign bit
differs — holds, demanding `overflow = true`. -/
theorem add_with_carry_overflow_bug :
    Operation.add_with_carry 2147483647 1 false = (2147483648, false, false) ∧
    Nat.testBit 2147483647 31 = Nat.testBit 1 31 ∧
    Nat.testBit 2147483648 31 ≠ Nat.testBit 2147483647 31 := by
  refine ⟨by decide, by decide, by decide⟩

/-- Claim C2, failing input: with C = 1 and Z = 1 (PSR value `0x60000000`),
`condition_passed` reports HI as true, while the ARM ARM truth table the
claim states (HI = C ∧ ¬Z) gives false. -/
theorem condition_passed_hi_bug :
    Operation.condition_passed Condition.HI ⟨1610612736⟩ = true ∧
    Operation.condition_passed_arm Condition.HI ⟨1610612736⟩ = false := by
  refine ⟨by decide, by decide⟩

/-- Claim C3, counterexample: a logical shift right by 1 panics
(`panic!("not implemented")` in `shift_c`), it does not return the shifted
value with the shifted-out bit as carry. -/
theorem shift_c_lsr_not_implemented :
    Operation.shift_c 1 SRType.LSR 1 false = none := rfl

/-- Claim C3 as amended: `shift_c` passes value and carry through when the
amount is 0 (for every type but RRX, whose assertion requires amount 1);
for positive amounts up to 32 only LSL is implemented, returning the low
32 bits of the widened shift together with bit 32 as the carry; LSR, ASR
and ROR with a positive amount panic, as does RRX with any amount other
than 1. -/
theorem shift_c_amended :
    (∀ v c (t : SRType), t ≠ SRType.RRX →
      Operation.shift_c v t 0 c = some (v, c)) ∧
    (∀ v n c, v < 4294967296 → 0 < n → n ≤ 32 →
      Operation.shift_c v SRType.LSL n c =
        some (u32 (v <<< n), Nat.testBit (v <<< n) 32)) ∧
    (∀ v n c (t : SRType), 0 < n →
      (t = SRType.LSR ∨ t = SRType.ASR ∨ t = SRType.ROR) →
      Operation.shift_c v t n c = none) ∧
    (∀ v n c, n ≠ 1 → Operation.shift_c v SRType.RRX n c = none) := by
  refine ⟨?_, ?_, ?_, ?_⟩
  · intro v c t ht
    cases t <;> simp_all [Operation.shift_c, Operation.shiftAssert]
  · intro v n c hv hn hn32
    have hmask : n % 64 = n := Nat.mod_eq_of_lt (by omega)
    have hshift : v <<< n = v * 2 ^ n := Nat.shiftLeft_eq v n
    have hlt : v <<< n < 18446744073709551616 := by
      rw [hshift]
      calc v * 2 ^ n < 4294967296 * 2 ^ n := by
            have hp : 0 < 2 ^ n := Nat.pos_pow_of_pos n (by norm_num)
            exact (Nat.mul_lt_mul_right hp).mpr hv
        _ ≤ 4294967296 * 2 ^ 32 := by
            exact Nat.mul_le_mul_left _ (Nat.pow_le_pow_right (by norm_num) hn32)
        _ = 18446744073709551616 := by norm_num
    simp only [Operation.shift_c, Operation.shiftAssert, Operation.lsl_c]
    have hne : n ≠ 0 := by omega
    simp [hne, hn, hmask, Nat.mod_eq_of_lt hlt, u32]
  · intro v n c t hn ht
    have hne : n ≠ 0 := by omega
    rcases ht with h | h | h <;> subst h <;>
      simp [Operation.shift_c, Operation.shiftAssert, hne]
  · intro v n c hn
    simp [Operation.shift_c, Operation.shiftAssert, hn]

/-- Witness for the amended claim C3 at concrete inputs: an ASR by 0
passes through, `LSL #31` of 3 yields `0x80000000` with carry out 1, an
ASR by 1 panics, and RRX with amount 2 fails the assertion. -/
theorem shift_c_amended_witness :
    Operation.shift_c 7 SRType.ASR 0 true = some (7, true) ∧
    Operation.shift_c 3 SRType.LSL 31 false =
      some (u32 (3 <<< 31), Nat.testBit (3 <<< 31) 32) ∧
    Operation.shift_c 1 SRType.ASR 1 false = none ∧
    Operation.shift_c 1 SRType.RRX 2 false = none :=
  ⟨shift_c_amended.1 7 true SRType.ASR (by decide),
   shift_c_amended.2.1 3 31 false (by decide) (by decide) (by decide),
   shift_c_amended.2.2.1 1 1 false SRType.ASR (by decide) (by decide),
   shift_c_amended.2.2.2 1 2 false (by decide)⟩

/-- Claim C5: `decode_imm_shift` realises the immediate-shift decode table
for every 2-bit type value and every immediate: 00 → (LSL, imm5);
01 → (LSR, 32 if imm5 = 0); 10 → (ASR, 32 if imm5 = 0); 11 → (RRX, 1) if
imm5 = 0, else (ROR, imm5). -/
theorem decode_imm_shift_table :
    ∀ imm5 : Nat,
      Operation.decode_imm_shift 0 imm5 = some (SRType.LSL, imm5) ∧
      Operation.decode_imm_shift 1 imm5 =
        some (SRType.LSR, if imm5 = 0 then 32 else imm5) ∧
      Operation.decode_imm_shift 2 imm5 =
        some (SRType.ASR, if imm5 = 0 then 32 else imm5) ∧
      Operation.decode_imm_shift 3 imm5 =
        some (if imm5 = 0 then (SRType.RRX, 1) else (SRType.ROR, imm5)) := by
  intro imm5
  refine ⟨rfl, rfl, rfl, ?_⟩
  cases imm5 <;> simp [Operation.decode_imm_shift]

/-- Claim C10: every (type, amount) pair `decode_imm_shift` produces
satisfies the assertion of `shift_c` (RRX only ever comes paired with
amount 1) and never pairs LSR or ASR with amount 0. -/
theorem decode_imm_shift_meets_shift_assert :
    ∀ typebits imm5 p,
      Operation.decode_imm_shift typebits imm5 = some p →
      Operation.shiftAssert p.1 p.2 = true ∧
      ((p.1 = SRType.LSR ∨ p.1 = SRType.ASR) → p.2 ≠ 0) := by
  intro typebits imm5 p h
  unfold Operation.decode_imm_shift at h
  have hm : typebits % 8 < 8 := Nat.mod_lt _ (by norm_num)
  generalize typebits % 8 = m at h hm
  interval_cases m
  · cases h
    refine ⟨by simp [Operation.shiftAssert], by simp⟩
  · cases h
    refine ⟨by simp [Operation.shiftAssert], ?_⟩
    intro _
    by_cases h0 : imm5 = 0 <;> simp [h0]
  · cases h
    refine ⟨by simp [Operation.shiftAssert], ?_⟩
    intro _
    by_cases h0 : imm5 = 0 <;> simp [h0]
  · cases imm5 with
    | zero =>
      cases h
      refine ⟨by simp [Operation.shiftAssert], by simp⟩
    | succ k =>
      cases h
      refine ⟨by simp [Operation.shiftAssert], by simp⟩
  · cases h
  · cases h
  · cases h
  · cases h

/-- Witness for claim C10 at `typebits = 3, imm5 = 0`, the RRX row of the
decode table. -/
theorem decode_imm_shift_meets_shift_assert_witness :
    Operation.shiftAssert SRType.RRX 1 = true ∧
    ((SRType.RRX = SRType.LSR ∨ SRType.RRX = SRType.ASR) → (1 : Nat) ≠ 0) :=
  decode_imm_shift_meets_shift_assert 3 0 (SRType.RRX, 1) rfl

namespace InternalBus

/-- Embedding of `InternalBus::in_range` from `bus/internal.rs`:
`INTERNAL_BUS_START = 0xE000_0000`, `INTERNAL_BUS_END = 0xF000_0000`. -/
def in_range (addr : Nat) : Bool :=
  if 3758096384 ≤ addr ∧ addr < 4026531840 then true else false

/-- Embedding of `InternalBus::read16`: unconditional bus-access-fault
panic, so no value is ever produced. -/
def read16 (_addr : Nat) : Option Nat := none

/-- Embedding of `InternalBus::read32`: unconditional panic. -/
def read32 (_addr : Nat) : Option Nat := none

/-- Embedding of `InternalBus::read8`: unconditional panic. -/
def read8 (_addr : Nat) : Option Nat := none

/-- Embedding of `InternalBus::write32`: unconditional panic. -/
def write32 (_addr : Nat) (_value : Nat) : Option Unit := none

/-- Embedding of `InternalBus::write8`: unconditional panic. -/
def write8 (_addr : Nat) (_value : Nat) : Option Unit := none

end InternalBus

/-- Claim C6: the internal bus claims exactly `[0xE0000000, 0xF0000000)`
and every read or write on it faults, whatever the address. -/
theorem internal_bus_range_and_faults :
    (∀ addr, InternalBus.in_range addr = true ↔
      3758096384 ≤ addr ∧ addr < 4026531840) ∧
    (∀ addr, InternalBus.read8 addr = none) ∧
    (∀ addr, InternalBus.read16 addr = none) ∧
    (∀ addr, InternalBus.read32 addr = none) ∧
    (∀ addr value, InternalBus.write8 addr value = none) ∧
    (∀ addr value, InternalBus.write32 addr value = none) := by
  refine ⟨?_, fun _ => rfl, fun _ => rfl, fun _ => rfl,
    fun _ _ => rfl, fun _ _ => rfl⟩
  intro addr
  simp [InternalBus.in_range]

/-- Modelled from the spec: a `ThumbCode` carries a raw 16- or 32-bit
Thumb opcode; `ThumbCode::from(opcode: u32)` wraps a 32-bit opcode.  The
file `core/thumb.rs` defining it is not among the provided sources. -/
inductive ThumbCode
  | thumb16 (opcode : Nat)
  | thumb32 (opcode : Nat)
  deriving DecidableEq

namespace DecoderV0

/-- Modelled from the spec: the `UDF` arm of the instruction type that the
decoder files `decoder/add.rs` and `decoder/adc.rs` construct — an
undefined-instruction marker carrying an immediate and the raw opcode.
The revision of `core/instruction.rs` these decoder files build against is
not among the provided sources (the provided `core/instruction.rs` is a
later revision with different field layouts). -/
inductive Instruction
  | UDF (imm32 : Nat) (opcode : ThumbCode)
  deriving DecidableEq

/-- Embedding of `decode_ADD_reg_t3` from `decoder/add.rs`: the 32-bit
ADD (register) T3 encoding is not implemented and decodes to `UDF`
carrying the raw opcode. -/
def decode_ADD_reg_t3 (opcode : Nat) : Option Instruction :=
  some (.UDF 0 (.thumb32 opcode))

/-- Embedding of `decode_ADD_imm_t4` from `decoder/add.rs`: the body is
`unimplemented!()`, an unconditional panic. -/
def decode_ADD_imm_t4 (_opcode : Nat) : Option Instruction := none

/-- Embedding of `decode_ADC_reg_t2` from `decoder/adc.rs`: the 32-bit
ADC (register) T2 encoding decodes to `UDF` carrying the raw opcode. -/
def decode_ADC_reg_t2 (opcode : Nat) : Option Instruction :=
  some (.UDF 0 (.thumb32 opcode))

/-- Embedding of `decode_ADC_imm_t1` from `decoder/adc.rs`: the body is
`unimplemented!()`, an unconditional panic. -/
def decode_ADC_imm_t1 (_opcode : Nat) : Option Instruction := none

end DecoderV0

/-- Claim C7, counterexample: `decode_ADC_imm_t1` hits an encoding the
decoder does not implement, yet at opcode 0 it panics
(`unimplemented!()`) instead of returning a `UDF` instruction. -/
theorem decode_adc_imm_t1_panics :
    DecoderV0.decode_ADC_imm_t1 0 = none := rfl

/-- Claim C7 as amended: of the cited unimplemented-encoding decoders,
`decode_ADD_reg_t3` and `decode_ADC_reg_t2` return a `UDF` instruction
carrying the raw opcode for every input, while `decode_ADD_imm_t4` and
`decode_ADC_imm_t1` panic via `unimplemented!()` for every input. -/
theorem decoder_udf_fallback_amended :
    ∀ opcode : Nat,
      DecoderV0.decode_ADD_reg_t3 opcode =
        some (.UDF 0 (.thumb32 opcode)) ∧
      DecoderV0.decode_ADC_reg_t2 opcode =
        some (.UDF 0 (.thumb32 opcode)) ∧
      DecoderV0.decode_ADD_imm_t4 opcode = none ∧
      DecoderV0.decode_ADC_imm_t1 opcode = none :=
  fun _ => ⟨rfl, rfl, rfl, rfl⟩

/-- A number masked with a single bit equals that bit exactly when the bit
is set. -/
theorem and_two_pow_eq_iff (w t : Nat) :
    w &&& 2 ^ t = 2 ^ t ↔ w.testBit t = true := by
  constructor
  · intro heq
    have h := congrArg (fun n => Nat.testBit n t) heq
    simpa [Nat.testBit_land, Nat.testBit_two_pow] using h
  · intro h
    apply Nat.eq_of_testBit_eq
    intro j
    by_cases hj : t = j
    · subst hj
      simp [Nat.testBit_land, Nat.testBit_two_pow, h]
    · simp [Nat.testBit_land, Nat.testBit_two_pow, hj]

/-- Claim C9, counterexample: at `word = 1, topbit = 0, size = 32` the
shift amount `size - topbit = 32` is masked to 0 by the release-profile
`u32` shift (a debug build panics), so the mask is empty and
`sign_extend` returns the word unchanged, 1 — whereas replicating bit 0
(which is 1) into bits 1 through 31 yields the word `0xFFFFFFFF`, whose
signed reading is `toSigned 4294967295 = -1`. -/
theorem sign_extend_full_width_bug :
    Operation.sign_extend 1 0 32 = 1 ∧ toSigned 4294967295 = -1 := by
  refine ⟨by decide, by decide⟩

/-- Claim C9 as amended: for `topbit < size ≤ 32` with
`size - topbit < 32`, `sign_extend` returns the word with bits
`topbit` through `size - 1` ORed in when bit `topbit` is set (so bits
`topbit + 1` through `size - 1` all become the set bit `topbit`, all
other bits unchanged), reinterpreted as a signed 32-bit integer, and the
word unchanged when bit `topbit` is 0. -/
theorem sign_extend_amended :
    ∀ w t s : Nat, w < 4294967296 → t < s → s ≤ 32 → s - t < 32 →
      Operation.sign_extend w t s =
        toSigned (if w.testBit t then w ||| (2 ^ s - 2 ^ t) else w) ∧
      (∀ i, (w ||| (2 ^ s - 2 ^ t)).testBit i =
        (w.testBit i || (decide (t ≤ i) && decide (i < s)))) := by
  intro w t s hw hts hs32 hd
  have ht32 : t < 32 := by omega
  have hpt : (2 : Nat) ^ t < 4294967296 := by
    calc (2 : Nat) ^ t < 2 ^ 32 := Nat.pow_lt_pow_right (by norm_num) ht32
      _ = 4294967296 := by norm_num
  have hps : (2 : Nat) ^ s ≤ 4294967296 := by
    calc (2 : Nat) ^ s ≤ 2 ^ 32 := Nat.pow_le_pow_right (by norm_num) hs32
      _ = 4294967296 := by norm_num
  have hpt1 : (1 : Nat) ≤ 2 ^ t := Nat.one_le_two_pow
  have hmask_eq : (2 ^ (s - t) - 1) <<< t = 2 ^ s - 2 ^ t := by
    rw [Nat.shiftLeft_eq, Nat.sub_mul, one_mul, ← Nat.pow_add]
    congr 2
    omega
  have hmask_lt : 2 ^ s - 2 ^ t < 4294967296 :=
    lt_of_lt_of_le
      (Nat.sub_lt (Nat.pos_pow_of_pos s (by norm_num))
        (Nat.pos_pow_of_pos t (by norm_num))) hps
  have hshift_amt : ((s + 256 - t) % 256) % 32 = s - t := by omega
  constructor
  · unfold Operation.sign_extend
    rw [show t % 32 = t from Nat.mod_eq_of_lt ht32, hshift_amt]
    rw [show u32 (1 <<< t) = 2 ^ t by
      rw [Nat.shiftLeft_eq, one_mul]; exact Nat.mod_eq_of_lt hpt]
    rw [show u32 (1 <<< (s - t)) = 2 ^ (s - t) by
      rw [Nat.shiftLeft_eq, one_mul]
      apply Nat.mod_eq_of_lt
      calc (2 : Nat) ^ (s - t) < 2 ^ 32 := Nat.pow_lt_pow_right (by norm_num) hd
        _ = 4294967296 := by norm_num]
    rw [hmask_eq]
    rw [show u32 (2 ^ s - 2 ^ t) = 2 ^ s - 2 ^ t from Nat.mod_eq_of_lt hmask_lt]
    have hor : u32 (w ||| (2 ^ s - 2 ^ t)) = w ||| (2 ^ s - 2 ^ t) := by
      apply Nat.mod_eq_of_lt
      have h2 : (4294967296 : Nat) = 2 ^ 32 := by norm_num
      rw [h2]
      exact Nat.or_lt_two_pow (h2 ▸ hw) (h2 ▸ hmask_lt)
    rw [hor]
    by_cases hb : w.testBit t = true
    · rw [if_pos ((and_two_pow_eq_iff w t).mpr hb), if_pos hb]
    · rw [if_neg (fun hc => hb ((and_two_pow_eq_iff w t).mp hc)), if_neg hb]
  · intro i
    rw [Nat.testBit_lor, ← hmask_eq, Nat.testBit_shiftLeft,
      Nat.testBit_two_pow_sub_one]
    by_cases hi : t ≤ i
    · have hdec : decide (i - t < s - t) = decide (i < s) := by
        simp only [decide_eq_decide]
        omega
      simp [hi, hdec]
    · simp [hi]

/-- Witness for the amended claim C9 at `word = 0x80, topbit = 7,
size = 32`: the byte `0x80` sign-extends to `0xFFFFFF80` read as signed. -/
theorem sign_extend_amended_witness :
    Operation.sign_extend 128 7 32 =
      toSigned (if Nat.testBit 128 7 then 128 ||| (2 ^ 32 - 2 ^ 7) else 128) :=
  (sign_extend_amended 128 7 32 (by norm_num) (by norm_num) (by norm_num)
    (by norm_num)).1

namespace Instr

/-- Modelled from the spec: the 16 ARM core registers R0–R12, SP (R13),
LR (R14), PC (R15).  `core/register.rs` is not among the provided
sources. -/
inductive Reg
  | R0 | R1 | R2 | R3 | R4 | R5 | R6 | R7 | R8 | R9 | R10 | R11 | R12
  | SP | LR | PC
  deriving DecidableEq

/-- Modelled from the spec: the index 0–15 of a core register. -/
def Reg.idx : Reg → Nat
  | .R0 => 0
  | .R1 => 1
  | .R2 => 2
  | .R3 => 3
  | .R4 => 4
  | .R5 => 5
  | .R6 => 6
  | .R7 => 7
  | .R8 => 8
  | .R9 => 9
  | .R10 => 10
  | .R11 => 11
  | .R12 => 12
  | .SP => 13
  | .LR => 14
  | .PC => 15

/-- Modelled from the spec: extension registers S0–S31 / D0–D15 are named
identifiers only. -/
inductive ExtensionReg
  | S (n : Nat)
  | D (n : Nat)
  deriving DecidableEq

/-- The `enum_set::EnumSet` register bitset of the external `enum_set`
crate, modelled as a finite set of registers. -/
abbrev EnumSet (α : Type) [DecidableEq α] := Finset α

/-- IT instruction conditions, from `core/instruction.rs`. -/
inductive ITCondition
  | Then
  | Else
  deriving DecidableEq

/-- Coding of imm32+carry variants, from `core/instruction.rs`. -/
inductive Imm32Carry
  | NoCarry (imm32 : Nat)
  | Carry (imm32_c0 : Nat × Bool) (imm32_c1 : Nat × Bool)
  deriving DecidableEq

/-- Instruction flag-setting variants, from `core/instruction.rs`. -/
inductive SetFlags
  | True
  | False
  | NotInITBlock
  deriving DecidableEq

/-- Parameter struct from `core/instruction.rs`. -/
structure Reg3ShiftParams where
  rd : Reg
  rn : Reg
  rm : Reg
  shift_t : SRType
  shift_n : Nat
  setflags : SetFlags
  deriving DecidableEq

/-- Parameter struct from `core/instruction.rs`. -/
structure Reg3Params where
  rd : Reg
  rn : Reg
  rm : Reg
  setflags : SetFlags
  deriving DecidableEq

/-- Parameter struct from `core/instruction.rs`. -/
structure Reg3NoSetFlagsParams where
  rd : Reg
  rn : Reg
  rm : Reg
  deriving DecidableEq

/-- Parameter struct from `core/instruction.rs`. -/
structure Reg2UsizeParams where
  rd : Reg
  rm : Reg
  rotation : Nat
  deriving DecidableEq

/-- Parameter struct from `core/instruction.rs`. -/
structure Reg3UsizeParams where
  rd : Reg
  rm : Reg
  rn : Reg
  rotation : Nat
  deriving DecidableEq

/-- Parameter struct from `core/instruction.rs`. -/
structure Reg4NoSetFlagsParams where
  rd : Reg
  rn : Reg
  rm : Reg
  ra : Reg
  deriving DecidableEq

/-- Parameter struct from `core/instruction.rs`. -/
structure Reg2ShiftParams where
  rd : Reg
  rm : Reg
  shift_t : SRType
  shift_n : Nat
  setflags : SetFlags
  deriving DecidableEq

/-- Parameter struct from `core/instruction.rs`. -/
structure Reg2ShiftNParams where
  rd : Reg
  rm : Reg
  shift_n : Nat
  setflags : SetFlags
  deriving DecidableEq

/-- Parameter struct from `core/instruction.rs`. -/
structure Reg2Params where
  rd : Reg
  rm : Reg
  setflags : Bool
  deriving DecidableEq

/-- Parameter struct from `core/instruction.rs`. -/
structure Reg2ImmParams where
  rd : Reg
  rn : Reg
  imm32 : Nat
  setflags : SetFlags
  deriving DecidableEq

/-- Parameter struct from `core/instruction.rs`. -/
structure Reg2ImmCarryParams where
  rd : Reg
  rn : Reg
  imm32 : Imm32Carry
  setflags : Bool
  deriving DecidableEq

/-- Parameter struct from `core/instruction.rs`. -/
structure RegImmCarryParams where
  rd : Reg
  imm32 : Imm32Carry
  setflags : SetFlags
  deriving DecidableEq

/-- Parameter struct from `core/instruction.rs`. -/
structure RegImmCarryNoSetFlagsParams where
  rn : Reg
  imm32 : Imm32Carry
  deriving DecidableEq

/-- Parameter struct from `core/instruction.rs`. -/
structure Reg2ShiftNoSetFlagsParams where
  rn : Reg
  rm : Reg
  shift_t : SRType
  shift_n : Nat
  deriving DecidableEq

/-- Parameter struct from `core/instruction.rs`. -/
structure RegImmParams where
  r : Reg
  imm32 : Nat
  deriving DecidableEq

/-- Parameter struct from `core/instruction.rs`. -/
structure Reg643232Params where
  rdlo : Reg
  rdhi : Reg
  rm : Reg
  rn : Reg
  deriving DecidableEq

/-- Parameter struct from `core/instruction.rs`. -/
structure Reg3HighParams where
  rd : Reg
  rn : Reg
  rm : Reg
  n_high : Bool
  m_high : Bool
  deriving DecidableEq

/-- Parameter struct from `core/instruction.rs`. -/
structure Reg4HighParams where
  rd : Reg
  rn : Reg
  rm : Reg
  ra : Reg
  n_high : Bool
  m_high : Bool
  deriving DecidableEq

/-- The tagged instruction representation from `core/instruction.rs`
(`enum Instruction`), variant for variant in source order.  The `CPS`
fields gated on the armv7m/armv7em configurations are absent in the
ARMv6-M build.  `i32` immediates are `Int`, unsigned ones `Nat`. -/
inductive Instruction
  | B_t13 (cond : Condition) (imm32 : Int) (thumb32 : Bool)
  | B_t24 (imm32 : Int) (thumb32 : Bool)
  | BL (imm32 : Int)
  | BLX (rm : Reg)
  | BX (rm : Reg)
  | CBZ (rn : Reg) (nonzero : Bool) (imm32 : Nat)
  | TBB (rn : Reg) (rm : Reg)
  | TBH (rn : Reg) (rm : Reg)
  | ADD_imm (params : Reg2ImmParams) (thumb32 : Bool)
  | ADD_reg (params : Reg3ShiftParams) (thumb32 : Bool)
  | ADD_sp_reg (params : Reg2ShiftParams) (thumb32 : Bool)
  | ADC_reg (params : Reg3ShiftParams) (thumb32 : Bool)
  | ADC_imm (params : Reg2ImmParams)
  | ADR (params : RegImmParams) (thumb32 : Bool)
  | AND_reg (params : Reg3ShiftParams) (thumb32 : Bool)
  | AND_imm (params : Reg2ImmCarryParams)
  | BIC_reg (params : Reg3ShiftParams) (thumb32 : Bool)
  | BIC_imm (params : Reg2ImmCarryParams)
  | CMN_reg (params : Reg2ShiftNoSetFlagsParams) (thumb32 : Bool)
  | CMN_imm (params : RegImmParams)
  | CMP_imm (params : RegImmParams) (thumb32 : Bool)
  | CMP_reg (params : Reg2ShiftNoSetFlagsParams) (thumb32 : Bool)
  | EOR_reg (params : Reg3ShiftParams) (thumb32 : Bool)
  | EOR_imm (params : Reg2ImmCarryParams)
  | MOV_imm (params : RegImmCarryParams) (thumb32 : Bool)
  | MOV_reg (params : Reg2Params) (thumb32 : Bool)
  | MVN_reg (params : Reg2ShiftParams) (thumb32 : Bool)
  | MVN_imm (params : RegImmCarryParams)
  | ORN_reg (params : Reg3ShiftParams)
  | ORR_reg (params : Reg3ShiftParams) (thumb32 : Bool)
  | ORR_imm (params : Reg2ImmCarryParams)
  | RSB_imm (params : Reg2ImmParams) (thumb32 : Bool)
  | RSB_reg (params : Reg3ShiftParams) (thumb32 : Bool)
  | SBC_reg (params : Reg3ShiftParams) (thumb32 : Bool)
  | SBC_imm (params : Reg2ImmParams)
  | SUB_imm (params : Reg2ImmParams) (thumb32 : Bool)
  | SUB_reg (params : Reg3ShiftParams) (thumb32 : Bool)
  | TEQ_reg (params : Reg2ShiftNoSetFlagsParams)
  | TEQ_imm (params : RegImmCarryNoSetFlagsParams)
  | TST_reg (params : Reg2ShiftNoSetFlagsParams) (thumb32 : Bool)
  | TST_imm (params : RegImmCarryNoSetFlagsParams)
  | ASR_imm (params : Reg2ShiftNParams) (thumb32 : Bool)
  | ASR_reg (params : Reg3Params) (thumb32 : Bool)
  | LSL_imm (params : Reg2ShiftNParams) (thumb32 : Bool)
  | LSL_reg (params : Reg3Params) (thumb32 : Bool)
  | LSR_imm (params : Reg2ShiftNParams) (thumb32 : Bool)
  | LSR_reg (params : Reg3Params) (thumb32 : Bool)
  | ROR_imm (params : Reg2ShiftNParams)
  | ROR_reg (params : Reg3Params) (thumb32 : Bool)
  | RRX (params : Reg2Params)
  | MLA (params : Reg4NoSetFlagsParams)
  | MLS (params : Reg4NoSetFlagsParams)
  | MUL (params : Reg3Params) (thumb32 : Bool)
  | SMLAL (params : Reg643232Params)
  | SMULL (params : Reg643232Params)
  | UMLAL (params : Reg643232Params)
  | UMULL (params : Reg643232Params)
  | SMUL (params : Reg3HighParams)
  | SMLA (params : Reg4HighParams)
  | SXTB (params : Reg2UsizeParams) (thumb32 : Bool)
  | SXTH (params : Reg2UsizeParams) (thumb32 : Bool)
  | UXTB (params : Reg2UsizeParams) (thumb32 : Bool)
  | UXTH (params : Reg2UsizeParams) (thumb32 : Bool)
  | UXTAB (params : Reg3UsizeParams)
  | SDIV (params : Reg3NoSetFlagsParams)
  | UDIV (params : Reg3NoSetFlagsParams)
  | UADD8 (rd : Reg) (rn : Reg) (rm : Reg)
  | BFC (rd : Reg) (lsbit : Nat) (msbit : Nat)
  | BFI (rd : Reg) (rn : Reg) (lsbit : Nat) (width : Nat)
  | CLZ (rd : Reg) (rm : Reg)
  | MOVT (rd : Reg) (imm16 : Nat)
  | REV (rd : Reg) (rm : Reg) (thumb32 : Bool)
  | REV16 (rd : Reg) (rm : Reg) (thumb32 : Bool)
  | REVSH (rd : Reg) (rm : Reg) (thumb32 : Bool)
  | UBFX (rd : Reg) (rn : Reg) (lsb : Nat) (widthminus1 : Nat)
  | SEL (rd : Reg) (rn : Reg) (rm : Reg)
  | MRS (rd : Reg) (sysm : Nat)
  | MSR_reg (rn : Reg) (sysm : Nat) (mask : Nat)
  | CPS (im : Bool)
  | LDR_imm (rt : Reg) (rn : Reg) (imm32 : Nat) (index : Bool) (add : Bool)
      (wback : Bool) (thumb32 : Bool)
  | LDR_lit (rt : Reg) (imm32 : Nat) (add : Bool) (thumb32 : Bool)
  | LDR_reg (rt : Reg) (rn : Reg) (rm : Reg) (shift_t : SRType)
      (shift_n : Nat) (index : Bool) (add : Bool) (wback : Bool)
      (thumb32 : Bool)
  | LDRB_imm (rt : Reg) (rn : Reg) (imm32 : Nat) (index : Bool) (add : Bool)
      (wback : Bool) (thumb32 : Bool)
  | LDRB_reg (rt : Reg) (rn : Reg) (rm : Reg) (shift_t : SRType)
      (shift_n : Nat) (index : Bool) (add : Bool) (wback : Bool)
      (thumb32 : Bool)
  | LDRH_imm (rt : Reg) (rn : Reg) (imm32 : Nat) (index : Bool) (add : Bool)
      (wback : Bool) (thumb32 : Bool)
  | LDRH_reg (rt : Reg) (rn : Reg) (rm : Reg) (shift_t : SRType)
      (shift_n : Nat) (index : Bool) (add : Bool) (wback : Bool)
      (thumb32 : Bool)
  | LDRSB_reg (rt : Reg) (rn : Reg) (rm : Reg) (shift_t : SRType)
      (shift_n : Nat) (index : Bool) (add : Bool) (wback : Bool)
      (thumb32 : Bool)
  | LDRSB_imm (rt : Reg) (rn : Reg) (imm32 : Nat) (index : Bool)
      (add : Bool) (wback : Bool) (thumb32 : Bool)
  | LDRSH_reg (rt : Reg) (rn : Reg) (rm : Reg) (shift_t : SRType)
      (shift_n : Nat) (index : Bool) (add : Bool) (wback : Bool)
      (thumb32 : Bool)
  | LDRSH_imm (rt : Reg) (rn : Reg) (imm32 : Nat) (index : Bool)
      (add : Bool) (wback : Bool) (thumb32 : Bool)
  | STR_imm (rn : Reg) (rt : Reg) (imm32 : Nat) (index : Bool) (add : Bool)
      (wback : Bool) (thumb32 : Bool)
  | STRD_imm (rn : Reg) (rt : Reg) (rt2 : Reg) (imm32 : Nat) (index : Bool)
      (add : Bool) (wback : Bool)
  | STRB_reg (rm : Reg) (rn : Reg) (rt : Reg) (shift_t : SRType)
      (shift_n : Nat) (index : Bool) (add : Bool) (wback : Bool)
      (thumb32 : Bool)
  | STRH_imm (rt : Reg) (rn : Reg) (imm32 : Nat) (index : Bool) (add : Bool)
      (wback : Bool) (thumb32 : Bool)
  | STRH_reg (rm : Reg) (rn : Reg) (rt : Reg) (shift_t : SRType)
      (shift_n : Nat) (index : Bool) (add : Bool) (wback : Bool)
      (thumb32 : Bool)
  | LDREX (rt : Reg) (rn : Reg) (imm32 : Nat)
  | LDREXB (rt : Reg) (rn : Reg)
  | LDREXH (rt : Reg) (rn : Reg)
  | LDRD_imm (rn : Reg) (rt : Reg) (rt2 : Reg) (imm32 : Nat) (index : Bool)
      (add : Bool) (wback : Bool)
  | STR_reg (rm : Reg) (rn : Reg) (rt : Reg) (shift_t : SRType)
      (shift_n : Nat) (index : Bool) (add : Bool) (wback : Bool)
      (thumb32 : Bool)
  | STRB_imm (rt : Reg) (rn : Reg) (imm32 : Nat) (index : Bool) (add : Bool)
      (wback : Bool) (thumb32 : Bool)
  | STREX (rd : Reg) (rt : Reg) (rn : Reg) (imm32 : Nat)
  | STREXB (rd : Reg) (rt : Reg) (rn : Reg)
  | STREXH (rd : Reg) (rt : Reg) (rn : Reg)
  | LDM (rn : Reg) (registers : EnumSet Reg) (thumb32 : Bool)
  | POP (registers : EnumSet Reg) (thumb32 : Bool)
  | PUSH (registers : EnumSet Reg) (thumb32 : Bool)
  | STM (rn : Reg) (registers : EnumSet Reg) (wback : Bool) (thumb32 : Bool)
  | STMDB (rn : Reg) (registers : EnumSet Reg) (wback : Bool)
  | DMB
  | DSB
  | ISB
  | IT (x : Option ITCondition) (y : Option ITCondition)
      (z : Option ITCondition) (firstcond : Condition) (mask : Nat)
  | NOP (thumb32 : Bool)
  | PLD_imm (rn : Reg) (imm32 : Nat) (add : Bool)
  | PLD_lit (imm32 : Nat) (add : Bool)
  | PLD_reg (rn : Reg) (rm : Reg) (shift_t : SRType) (shift_n : Nat)
  | SEV (thumb32 : Bool)
  | WFE (thumb32 : Bool)
  | WFI (thumb32 : Bool)
  | YIELD (thumb32 : Bool)
  | SVC (imm32 : Nat)
  | BKPT (imm32 : Nat)
  | MCR (rt : Reg) (coproc : Nat) (opc1 : Nat) (opc2 : Nat) (crn : Nat)
      (crm : Nat)
  | MCR2 (rt : Reg) (coproc : Nat) (opc1 : Nat) (opc2 : Nat) (crn : Nat)
      (crm : Nat)
  | LDC_imm (coproc : Nat) (imm32 : Nat) (crd : Nat) (rn : Reg)
  | LDC2_imm (coproc : Nat) (imm32 : Nat) (crd : Nat) (rn : Reg)
  | UDF (imm32 : Nat) (opcode : ThumbCode) (thumb32 : Bool)
  | VLDR (dd : ExtensionReg) (rn : Reg) (add : Bool) (imm32 : Nat)
      (single_reg : Bool)
  | VSTR (dd : ExtensionReg) (rn : Reg) (add : Bool) (imm32 : Nat)
      (single_reg : Bool)

/-- Embedding of `isize_t` from `core/instruction.rs`. -/
def isize_t (thumb32 : Bool) : Nat :=
  if thumb32 then 4 else 2

/-- Embedding of `instruction_size` from `core/instruction.rs`, arm for
arm in source order. -/
def instruction_size (instruction : Instruction) : Nat :=
  match instruction with
  | .ADC_imm .. => 4
  | .ADC_reg _ t => isize_t t
  | .ADD_imm _ t => isize_t t
  | .ADD_reg _ t => isize_t t
  | .ADD_sp_reg _ t => isize_t t
  | .ADR _ t => isize_t t
  | .AND_imm .. => 4
  | .AND_reg _ t => isize_t t
  | .ASR_imm _ t => isize_t t
  | .ASR_reg _ t => isize_t t
  | .B_t13 _ _ t => isize_t t
  | .B_t24 _ t => isize_t t
  | .BFI .. => 4
  | .BFC .. => 4
  | .BIC_imm .. => 4
  | .BIC_reg _ t => isize_t t
  | .BKPT .. => 2
  | .BL .. => 4
  | .BLX .. => 2
  | .BX .. => 2
  | .CBZ .. => 2
  | .CLZ .. => 4
  | .CMN_imm .. => 4
  | .CMN_reg _ t => isize_t t
  | .CMP_imm _ t => isize_t t
  | .CMP_reg _ t => isize_t t
  | .CPS .. => 2
  | .DMB => 4
  | .DSB => 4
  | .EOR_imm .. => 4
  | .EOR_reg _ t => isize_t t
  | .ISB => 4
  | .IT .. => 2
  | .LDC_imm .. => 4
  | .LDC2_imm .. => 4
  | .LDM _ _ t => isize_t t
  | .LDR_imm _ _ _ _ _ _ t => isize_t t
  | .LDR_lit _ _ _ t => isize_t t
  | .LDR_reg _ _ _ _ _ _ _ _ t => isize_t t
  | .LDRB_imm _ _ _ _ _ _ t => isize_t t
  | .LDRB_reg _ _ _ _ _ _ _ _ t => isize_t t
  | .LDRD_imm .. => 4
  | .LDREX .. => 4
  | .LDREXB .. => 4
  | .LDREXH .. => 4
  | .LDRH_imm _ _ _ _ _ _ t => isize_t t
  | .LDRH_reg _ _ _ _ _ _ _ _ t => isize_t t
  | .LDRSB_imm _ _ _ _ _ _ t => isize_t t
  | .LDRSB_reg _ _ _ _ _ _ _ _ t => isize_t t
  | .LDRSH_imm _ _ _ _ _ _ t => isize_t t
  | .LDRSH_reg _ _ _ _ _ _ _ _ t => isize_t t
  | .LSL_imm _ t => isize_t t
  | .LSL_reg _ t => isize_t t
  | .LSR_imm _ t => isize_t t
  | .LSR_reg _ t => isize_t t
  | .MCR .. => 4
  | .MCR2 .. => 4
  | .MLA .. => 4
  | .MLS .. => 4
  | .MOV_imm _ t => isize_t t
  | .MOV_reg _ t => isize_t t
  | .MOVT .. => 4
  | .MRS .. => 4
  | .MSR_reg .. => 4
  | .MUL _ t => isize_t t
  | .MVN_imm .. => 4
  | .MVN_reg _ t => isize_t t
  | .NOP t => isize_t t
  | .ORN_reg .. => 4
  | .ORR_imm .. => 4
  | .ORR_reg _ t => isize_t t
  | .PLD_imm .. => 4
  | .PLD_lit .. => 4
  | .PLD_reg .. => 4
  | .POP _ t => isize_t t
  | .PUSH _ t => isize_t t
  | .REV _ _ t => isize_t t
  | .REV16 _ _ t => isize_t t
  | .REVSH _ _ t => isize_t t
  | .ROR_imm .. => 4
  | .ROR_reg _ t => isize_t t
  | .RRX .. => 4
  | .RSB_imm _ t => isize_t t
  | .RSB_reg .. => 4
  | .SBC_imm .. => 4
  | .SBC_reg _ t => isize_t t
  | .SDIV .. => 4
  | .SEL .. => 4
  | .SEV t => isize_t t
  | .SMLA .. => 4
  | .SMLAL .. => 4
  | .SMUL .. => 4
  | .SMULL .. => 4
  | .STM _ _ _ t => isize_t t
  | .STMDB .. => 4
  | .STR_imm _ _ _ _ _ _ t => isize_t t
  | .STR_reg _ _ _ _ _ _ _ _ t => isize_t t
  | .STRB_imm _ _ _ _ _ _ t => isize_t t
  | .STRB_reg _ _ _ _ _ _ _ _ t => isize_t t
  | .STRD_imm .. => 4
  | .STREX .. => 4
  | .STREXB .. => 4
  | .STREXH .. => 4
  | .STRH_imm _ _ _ _ _ _ t => isize_t t
  | .STRH_reg _ _ _ _ _ _ _ _ t => isize_t t
  | .SUB_imm _ t => isize_t t
  | .SUB_reg _ t => isize_t t
  | .SVC .. => 2
  | .SXTB _ t => isize_t t
  | .SXTH _ t => isize_t t
  | .TBB .. => 4
  | .TBH .. => 4
  | .TEQ_imm .. => 4
  | .TEQ_reg .. => 4
  | .TST_imm .. => 4
  | .TST_reg _ t => isize_t t
  | .UADD8 .. => 4
  | .UBFX .. => 4
  | .UDF _ _ t => isize_t t
  | .UDIV .. => 4
  | .UMLAL .. => 4
  | .UMULL .. => 4
  | .UXTAB .. => 4
  | .UXTB _ t => isize_t t
  | .UXTH _ t => isize_t t
  | .WFE t => isize_t t
  | .WFI t => isize_t t
  | .YIELD t => isize_t t
  | .VLDR .. => 4
  | .VSTR .. => 4

/-- The `thumb32` marker of an instruction value, for the variants of
`enum Instruction` that carry one (`none` for the variants without the
field).  Statement-side accessor, read off the enum declaration. -/
def thumb32_field (instruction : Instruction) : Option Bool :=
  match instruction with
  | .B_t13 _ _ t => some t
  | .B_t24 _ t => some t
  | .ADD_imm _ t => some t
  | .ADD_reg _ t => some t
  | .ADD_sp_reg _ t => some t
  | .ADC_reg _ t => some t
  | .ADR _ t => some t
  | .AND_reg _ t => some t
  | .BIC_reg _ t => some t
  | .CMN_reg _ t => some t
  | .CMP_imm _ t => some t
  | .CMP_reg _ t => some t
  | .EOR_reg _ t => some t
  | .MOV_imm _ t => some t
  | .MOV_reg _ t => some t
  | .MVN_reg _ t => some t
  | .ORR_reg _ t => some t
  | .RSB_imm _ t => some t
  | .RSB_reg _ t => some t
  | .SBC_reg _ t => some t
  | .SUB_imm _ t => some t
  | .SUB_reg _ t => some t
  | .TST_reg _ t => some t
  | .ASR_imm _ t => some t
  | .ASR_reg _ t => some t
  | .LSL_imm _ t => some t
  | .LSL_reg _ t => some t
  | .LSR_imm _ t => some t
  | .LSR_reg _ t => some t
  | .ROR_reg _ t => some t
  | .MUL _ t => some t
  | .SXTB _ t => some t
  | .SXTH _ t => some t
  | .UXTB _ t => some t
  | .UXTH _ t => some t
  | .REV _ _ t => some t
  | .REV16 _ _ t => some t
  | .REVSH _ _ t => some t
  | .LDR_imm _ _ _ _ _ _ t => some t
  | .LDR_lit _ _ _ t => some t
  | .LDR_reg _ _ _ _ _ _ _ _ t => some t
  | .LDRB_imm _ _ _ _ _ _ t => some t
  | .LDRB_reg _ _ _ _ _ _ _ _ t => some t
  | .LDRH_imm _ _ _ _ _ _ t => some t
  | .LDRH_reg _ _ _ _ _ _ _ _ t => some t
  | .LDRSB_reg _ _ _ _ _ _ _ _ t => some t
  | .LDRSB_imm _ _ _ _ _ _ t => some t
  | .LDRSH_reg _ _ _ _ _ _ _ _ t => some t
  | .LDRSH_imm _ _ _ _ _ _ t => some t
  | .STR_imm _ _ _ _ _ _ t => some t
  | .STRB_reg _ _ _ _ _ _ _ _ t => some t
  | .STRH_imm _ _ _ _ _ _ t => some t
  | .STRH_reg _ _ _ _ _ _ _ _ t => some t
  | .STR_reg _ _ _ _ _ _ _ _ t => some t
  | .STRB_imm _ _ _ _ _ _ t => some t
  | .LDM _ _ t => some t
  | .POP _ t => some t
  | .PUSH _ t => some t
  | .STM _ _ _ t => some t
  | .NOP t => some t
  | .SEV t => some t
  | .WFE t => some t
  | .WFI t => some t
  | .YIELD t => some t
  | .UDF _ _ t => some t
  | _ => none

/-- Whether an instruction value is the `RSB_reg` variant. -/
def isRSBreg (instruction : Instruction) : Bool :=
  match instruction with
  | .RSB_reg .. => true
  | _ => false

end Instr

/-- Claim C4, counterexample: the `RSB_reg` variant carries a `thumb32`
field, yet `instruction_size` answers 4 even when that field is false
(the source arm reads `RSB_reg { thumb32, .. } => 4`). -/
theorem instruction_size_rsb_reg_cex :
    Instr.instruction_size
      (Instr.Instruction.RSB_reg
        ⟨Instr.Reg.R0, Instr.Reg.R0, Instr.Reg.R0, SRType.LSL, 0,
          Instr.SetFlags.False⟩ false) ≠ 2 := by
  decide

/-- Claim C4 as amended: for every encoding variant carrying a `thumb32`
field except `RSB_reg`, `instruction_size` returns `isize_t thumb32`
(4 when the marker is set, 2 otherwise); `RSB_reg` reports 4 regardless
of its `thumb32` field. -/
theorem instruction_size_thumb32_amended :
    (∀ (i : Instr.Instruction) (b : Bool),
      Instr.thumb32_field i = some b → Instr.isRSBreg i = false →
      Instr.instruction_size i = Instr.isize_t b) ∧
    (∀ (params : Instr.Reg3ShiftParams) (b : Bool),
      Instr.instruction_size (Instr.Instruction.RSB_reg params b) = 4) := by
  constructor
  · intro i b h hn
    cases i <;>
      first
        | exact Option.noConfusion h
        | exact Bool.noConfusion hn
        | (injection h with h2; subst h2; rfl)
  · intro params b
    rfl

/-- Witness for the amended claim C4 at two concrete instructions: a
16-bit `NOP` reports size 2 and a 32-bit `UDF` reports size 4. -/
theorem instruction_size_thumb32_amended_witness :
    Instr.instruction_size (Instr.Instruction.NOP false) =
      Instr.isize_t false ∧
    Instr.instruction_size
      (Instr.Instruction.UDF 0 (ThumbCode.thumb32 0) true) =
      Instr.isize_t true :=
  ⟨instruction_size_thumb32_amended.1 (Instr.Instruction.NOP false) false
      rfl rfl,
   instruction_size_thumb32_amended.1
      (Instr.Instruction.UDF 0 (ThumbCode.thumb32 0) true) true rfl rfl⟩

namespace Decoder

/-- Modelled from the spec: the list of the 16 core registers in index
order, supporting the register-list decode. -/
def allRegs : List Instr.Reg :=
  [.R0, .R1, .R2, .R3, .R4, .R5, .R6, .R7, .R8, .R9, .R10, .R11, .R12,
   .SP, .LR, .PC]

/-- Modelled from the spec: `get_reglist` (imported by `decoder/push.rs`
from `core::operation`, but absent from the provided revision of
`core/operation.rs`) maps a 16-bit mask to the set of core registers
whose index bit is set — the low byte selects R0–R7 and the 32-bit
encodings widen the selection to all 16 registers. -/
def get_reglist (reglist : Nat) : Instr.EnumSet Instr.Reg :=
  (allRegs.filter (fun r => reglist.testBit r.idx)).toFinset

/-- Embedding of `decode_PUSH_t1` from `decoder/push.rs`: the low byte
selects R0–R7 and bit 8 (`opcode.get_bit(8)`) inserts LR; the decoded
instruction is a 16-bit (`thumb32: false`) `PUSH`. -/
def decode_PUSH_t1 (opcode : Nat) : Instr.Instruction :=
  let regs := get_reglist (opcode &&& 255)
  let regs := if opcode.testBit 8 then insert Instr.Reg.LR regs else regs
  .PUSH regs false

/-- Embedding of `decode_PUSH_t2` from `decoder/push.rs`: the low 16 bits
masked with `0b0101_1111_1111_1111` (clearing the SP and PC positions)
select the register list; the decoded instruction is a 32-bit
(`thumb32: true`) `PUSH`. -/
def decode_PUSH_t2 (opcode : Nat) : Instr.Instruction :=
  .PUSH (get_reglist (opcode &&& 24575)) true

/-- The register set carried by a `PUSH` instruction value (statement-side
accessor; empty for other variants). -/
def pushRegisters (instruction : Instr.Instruction) : Instr.EnumSet Instr.Reg :=
  match instruction with
  | .PUSH regs _ => regs
  | _ => ∅

/-- A register is in a decoded register list exactly when its index bit
is set in the mask. -/
theorem mem_get_reglist (mask : Nat) (r : Instr.Reg) :
    r ∈ get_reglist mask ↔ mask.testBit r.idx = true := by
  unfold get_reglist
  rw [List.mem_toFinset, List.mem_filter]
  constructor
  · rintro ⟨_, h⟩
    simpa using h
  · intro h
    refine ⟨by cases r <;> simp [allRegs], by simpa using h⟩

/-- The bits of the low-byte mask `0xFF`. -/
theorem testBit_255 (k : Nat) : (255 : Nat).testBit k = decide (k < 8) := by
  rw [show (255 : Nat) = 2 ^ 8 - 1 by norm_num, Nat.testBit_two_pow_sub_one]

/-- The bits of the `PUSH` T2 register-list mask `0x5FFF` (bits 0–12 and
14). -/
theorem testBit_24575 (k : Nat) :
    (24575 : Nat).testBit k = (decide (k ≤ 12) || decide (k = 14)) := by
  by_cases hk : k < 15
  · interval_cases k <;> decide
  · have hlt : (24575 : Nat) < 2 ^ k := by
      calc (24575 : Nat) < 2 ^ 15 := by norm_num
        _ ≤ 2 ^ k := Nat.pow_le_pow_right (by norm_num) (by omega)
    rw [Nat.testBit_lt_two_pow hlt]
    have h1 : ¬(k ≤ 12) := by omega
    have h2 : k ≠ 14 := by omega
    simp [h1, h2]

end Decoder

/-- Claim C8: a 16-bit `PUSH` opcode decodes to exactly the registers
R0–R7 selected by its low byte, plus LR when bit 8 is set; a 32-bit
`PUSH` encoding (whose SP and PC positions, bits 13 and 15, are zero)
decodes to exactly the registers among all 16 selected by its 16-bit
register-list field. -/
theorem push_reglist_decode :
    (∀ (opcode : Nat) (r : Instr.Reg),
      r ∈ Decoder.pushRegisters (Decoder.decode_PUSH_t1 opcode) ↔
        (r.idx < 8 ∧ opcode.testBit r.idx = true) ∨
        (r = Instr.Reg.LR ∧ opcode.testBit 8 = true)) ∧
    (∀ (opcode : Nat) (r : Instr.Reg),
      opcode.testBit 13 = false → opcode.testBit 15 = false →
      (r ∈ Decoder.pushRegisters (Decoder.decode_PUSH_t2 opcode) ↔
        opcode.testBit r.idx = true)) := by
  constructor
  · intro opcode r
    by_cases h8 : opcode.testBit 8 <;>
      simp [Decoder.decode_PUSH_t1, h8, Decoder.pushRegisters,
        Decoder.mem_get_reglist, Nat.testBit_land, Decoder.testBit_255] <;>
      tauto
  · intro opcode r h13 h15
    simp only [Decoder.decode_PUSH_t2, Decoder.pushRegisters,
      Decoder.mem_get_reglist, Nat.testBit_land, Decoder.testBit_24575,
      Bool.and_eq_true, Bool.or_eq_true, decide_eq_true_eq]
    cases r <;> simp_all [Instr.Reg.idx]

/-- Witness for claim C8: opcode `0x101` pushes R0 and LR; the 32-bit
mask `0x4004` (bits 2 and 14) pushes R2, with bits 13 and 15 clear. -/
theorem push_reglist_decode_witness :
    (Instr.Reg.LR ∈ Decoder.pushRegisters (Decoder.decode_PUSH_t1 257) ↔
      (Instr.Reg.LR.idx < 8 ∧ Nat.testBit 257 Instr.Reg.LR.idx = true) ∨
      (Instr.Reg.LR = Instr.Reg.LR ∧ Nat.testBit 257 8 = true)) ∧
    (Instr.Reg.R2 ∈ Decoder.pushRegisters (Decoder.decode_PUSH_t2 16388) ↔
      Nat.testBit 16388 Instr.Reg.R2.idx = true) :=
  ⟨push_reglist_decode.1 257 Instr.Reg.LR,
   push_reglist_decode.2 16388 Instr.Reg.R2 (by decide) (by decide)⟩

end Zmu
